import Mathlib

/-!
Verification development for the GitHub repository-analysis agent.

The definitions below are a shallow embedding of the agent orchestration
layer: the pydantic output model and its validation (agent.py), the tool
handlers with their argument-coercion preludes and post-fetch filters
(agent.py), the system-prompt composer (agent.py, repository_context),
the conversation persistence pair (agent.py, save_messages_to_json and
load_messages_from_json), and the history-filename derivation
(github_repo_assistant.py, get_history_filename).

External collaborators (the GitHub data-access layer, the language model,
the filesystem) are modelled as explicit parameters: a handler that in the
source fetches data over the network here receives the fetched value as an
argument, and file-system state is an explicit map from filenames to
stored content.
-/

/-- Substring test mirroring the Python membership test needle in hay on
strings: true when the character sequence of needle occurs contiguously
inside the character sequence of hay. -/
def strContains (hay needle : String) : Bool :=
  decide (needle.data <:+: hay.data)

/-- Lowercasing mirroring the Python str.lower call on the ASCII
fragment the agent works with, defined character-wise over the character
sequence of the string. -/
def py_lower (s : String) : String :=
  String.mk (s.data.map Char.toLower)

/-- Values crossing the model-to-tool boundary, as the handlers see them:
the Python value None, an actual string, or a non-string marker object
(the pydantic FieldInfo placeholder that the handlers guard against). -/
inductive PyVal where
  | pyNone
  | pyStr (s : String)
  | fieldInfo
  deriving DecidableEq

/-- Test mirroring the Python check isinstance(v, str). -/
def PyVal.isStr : PyVal → Bool
  | PyVal.pyStr _ => true
  | _ => false

/-- Coercion prelude of analyze_issues (agent.py lines 238-240): if state
is not None and not isinstance(state, str) then state is replaced by the
declared default "all". -/
def analyze_issues_coerce_state (state : PyVal) : PyVal :=
  if state ≠ PyVal.pyNone ∧ state.isStr = false then PyVal.pyStr "all" else state

/-- Coercion prelude of list_commits (agent.py lines 287-288): a non-None
non-string path is replaced by None. -/
def list_commits_coerce_path (path : PyVal) : PyVal :=
  if path ≠ PyVal.pyNone ∧ path.isStr = false then PyVal.pyNone else path

/-- Coercion prelude of analyze_commits (agent.py lines 323-324): a
non-None non-string path is replaced by None. -/
def analyze_commits_coerce_path (path : PyVal) : PyVal :=
  if path ≠ PyVal.pyNone ∧ path.isStr = false then PyVal.pyNone else path

/-- The list_issues handler (agent.py lines 196-222) contains no
isinstance guard: the state argument it receives is forwarded unchanged
to github_utils.list_repository_issues. -/
def list_issues_forwarded_state (state : PyVal) : PyVal := state

/-- The list_directory_contents handler (agent.py lines 394-425) contains
no isinstance guard: the path argument it receives is forwarded unchanged
to github_utils.get_repository_content. -/
def list_directory_contents_forwarded_path (path : PyVal) : PyVal := path

/-- An issue dictionary as built by github_utils.list_repository_issues:
the fields the analyze_issues filter reads, plus identifying fields. -/
structure Issue where
  number : Nat
  title : String
  state : String
  labels : List String
  deriving DecidableEq

/-- Output model IssueAnalysisResult (agent.py lines 51-54). -/
structure IssueAnalysisResult where
  issues : List Issue
  summary : String
  deriving DecidableEq

/-- Core of the analyze_issues tool (agent.py lines 225-271) after the
state coercion prelude: the issues parameter is the list fetched by
github_utils.list_repository_issues, and state is the (already coerced)
state string used for the fetch and interpolated into the summary. -/
def analyze_issues (query state : String) (issues : List Issue) : IssueAnalysisResult :=
  let query_lower := py_lower query
  let matching_issues := issues.filter (fun issue =>
    strContains (py_lower issue.title) query_lower ||
    issue.labels.any (fun label => strContains (py_lower label) query_lower))
  let summary :=
    if matching_issues.length = 0 then
      "No issues found matching '" ++ query ++ "' with state '" ++ state ++ "'."
    else
      "Found " ++ toString matching_issues.length ++ " issues matching '" ++ query ++
        "' with state '" ++ state ++ "'."
  { issues := matching_issues, summary := summary }

/-- A commit dictionary as built by github_utils.list_repository_commits:
the field the analyze_commits filter reads, plus the identifying sha. -/
structure Commit where
  sha : String
  message : String
  deriving DecidableEq

/-- Output model CommitAnalysisResult (agent.py lines 57-60). -/
structure CommitAnalysisResult where
  commits : List Commit
  summary : String
  deriving DecidableEq

/-- Core of the analyze_commits tool (agent.py lines 309-358) after the
path coercion prelude: the commits parameter is the list fetched by
github_utils.list_repository_commits for the given path; a None or empty
path contributes no path clause to the summary (Python truthiness). -/
def analyze_commits (query : String) (path : Option String) (commits : List Commit) :
    CommitAnalysisResult :=
  let query_lower := py_lower query
  let matching_commits := commits.filter (fun commit =>
    strContains (py_lower commit.message) query_lower)
  let path_clause :=
    match path with
    | some p => if p = "" then "" else " in path '" ++ p ++ "'"
    | none => ""
  let summary :=
    if matching_commits.length = 0 then
      "No commits found matching '" ++ query ++ "'" ++ path_clause
    else
      "Found " ++ toString matching_commits.length ++ " commits matching '" ++ query ++
        "'" ++ path_clause
  { commits := matching_commits, summary := summary }

/-- Candidate data for the RepositoryAnalysisResult model, before
validation: each declared field is either present with a value of its
declared type or absent. The confidence float is modelled by a rational
number. -/
structure ResultCandidate where
  answer : Option String
  sources : Option (List String)
  confidence : Option ℚ
  deriving DecidableEq

/-- Output model RepositoryAnalysisResult (agent.py lines 63-67): answer
is a required string, sources defaults to the empty list, confidence is a
required float declared with ge 0.0 and le 1.0. -/
structure RepositoryAnalysisResult where
  answer : String
  sources : List String
  confidence : ℚ
  deriving DecidableEq

/-- Validation of a RepositoryAnalysisResult candidate, embedding exactly
the constraints declared on the model (agent.py lines 63-67): answer and
confidence are required, confidence must satisfy 0.0 le confidence and
confidence le 1.0, sources falls back to its default_factory empty list.
An out-of-range confidence is a validation error, never clamped. -/
def validate_repository_analysis_result (c : ResultCandidate) :
    Except String RepositoryAnalysisResult :=
  match c.answer with
  | none => Except.error "answer: Field required"
  | some a =>
    match c.confidence with
    | none => Except.error "confidence: Field required"
    | some conf =>
      if conf < 0 then
        Except.error "confidence: Input should be greater than or equal to 0"
      else if 1 < conf then
        Except.error "confidence: Input should be less than or equal to 1"
      else
        Except.ok { answer := a, sources := c.sources.getD [], confidence := conf }

/-- Return value of github_utils.get_repository_content (lines 298-339):
a single dictionary for a file-like path, or a list of dictionaries for a
directory. Dictionary payloads are modelled as string-keyed association
lists of string values; only the type field is inspected by the
handlers. -/
inductive ContentVal where
  | pydict (fields : List (String × String))
  | pylist (items : List (List (String × String)))
  deriving DecidableEq

/-- Association-list lookup mirroring a Python dictionary access: the
value at the first matching key, or absence. -/
def lookupField (fields : List (String × String)) (key : String) : Option String :=
  match fields with
  | [] => none
  | (k, v) :: rest => if k = key then some v else lookupField rest key

/-- The get_file_content tool (agent.py lines 361-391) applied to the
value returned by the collaborator for the requested path: unless that
value is a dictionary carrying a type field equal to "file", it raises a
ValueError naming the path. -/
def get_file_content (path : String) (content : ContentVal) : Except String ContentVal :=
  match content with
  | ContentVal.pydict fields =>
    match lookupField fields "type" with
    | some t =>
      if t = "file" then Except.ok content
      else Except.error ("Path '" ++ path ++ "' does not point to a file")
    | none => Except.error ("Path '" ++ path ++ "' does not point to a file")
  | ContentVal.pylist _ => Except.error ("Path '" ++ path ++ "' does not point to a file")

/-- The list_directory_contents tool (agent.py lines 394-425) applied to
the value returned by the collaborator for the requested path: unless
that value is a list, it raises a ValueError naming the path. -/
def list_directory_contents (path : String) (contents : ContentVal) :
    Except String (List (List (String × String))) :=
  match contents with
  | ContentVal.pylist items => Except.ok items
  | ContentVal.pydict _ => Except.error ("Path '" ++ path ++ "' does not point to a directory")

/-- Modelled from the spec: a Message is one conversation turn holding a
role and a content payload (spec section 3). The concrete ModelMessage
type lives in the external pydantic_ai library, outside this repository,
so the message structure is taken from the specification. -/
structure Message where
  role : String
  content : String
  deriving DecidableEq

/-- A JSON-like tree, the self-describing structured text format the
Conversation Store writes (spec section 6). -/
inductive Json where
  | str (s : String)
  | arr (xs : List Json)
  | obj (kvs : List (String × Json))

/-- Modelled from the spec: serialization of one Message, standing for
pydantic_core.to_jsonable_python on a ModelMessage (agent.py line 540),
which lives outside this repository. -/
def serializeMessage (m : Message) : Json :=
  Json.obj [("role", Json.str m.role), ("content", Json.str m.content)]

/-- Modelled from the spec: deserialization of one Message, standing for
the per-element validation performed by ModelMessagesTypeAdapter
(agent.py line 572), which lives outside this repository. A tree that is
not the serialized form of a Message fails validation. -/
def deserializeMessage : Json → Option Message
  | Json.obj [("role", Json.str r), ("content", Json.str c)] => some { role := r, content := c }
  | _ => none

/-- Deserialization of a list of serialized messages: every element must
validate, otherwise the whole validation fails (and the caller of
load_messages_from_json turns that failure into an empty history). -/
def deserializeMessageList : List Json → Option (List Message)
  | [] => some []
  | j :: rest =>
    match deserializeMessage j, deserializeMessageList rest with
    | some m, some ms => some (m :: ms)
    | _, _ => none

/-- Deserialization of a stored history file: the stored tree must be an
array whose elements all validate as messages. -/
def deserializeMessages : Json → Option (List Message)
  | Json.arr xs => deserializeMessageList xs
  | _ => none

/-- File-system state, an explicit map from filenames to stored parsed
content; absence models a file that does not exist. The json.dump and
json.load text encoding is identified with the tree it round-trips. -/
def FileStore : Type := String → Option Json

/-- The save_messages_to_json function (agent.py lines 528-549): open the
named file for writing and store the serialized message list, leaving
every other file unchanged. -/
def save_messages_to_json (messages : List Message) (filename : String) (fs : FileStore) :
    FileStore :=
  fun f =>
    if f = filename then some (Json.arr (messages.map serializeMessage)) else fs f

/-- The load_messages_from_json function (agent.py lines 552-579): a
missing file yields the empty history (the os.path.exists guard), a
stored tree that validates yields its messages, and any validation
failure is caught and also yields the empty history. The function is
total: every exception path returns a value. -/
def load_messages_from_json (filename : String) (fs : FileStore) : List Message :=
  match fs filename with
  | none => []
  | some j =>
    match deserializeMessages j with
    | some ms => ms
    | none => []

/-- Splitting a character sequence on the slash character, mirroring the
Python call repo_name.split("/"): the empty sequence yields one empty
part, and every slash opens a new part. -/
def py_split_slash : List Char → List (List Char)
  | [] => [[]]
  | c :: rest =>
    let parts := py_split_slash rest
    if c = '/' then [] :: parts
    else
      match parts with
      | [] => [[c]]
      | h :: t => (c :: h) :: t

/-- A repository metadata dictionary as built by
github_utils.list_user_repositories: the fields repository_context
reads. -/
structure RepoInfo where
  full_name : String
  description : Option String
  language : Option String
  stargazers_count : Nat
  forks_count : Nat
  updated_at : String
  deriving DecidableEq

/-- Python truthiness fallback x or y on an optional string: None and the
empty string both fall back to the default. -/
def pyOrStr (x : Option String) (dflt : String) : String :=
  match x with
  | none => dflt
  | some s => if s = "" then dflt else s

/-- Enriched instruction text built by repository_context when the
metadata fetch succeeds and the repository is found (agent.py lines
111-125), with the datetime strings passed in explicitly. -/
def enriched_context (repo_name : String) (info : RepoInfo) (date time : String) : String :=
  "if you need addtional information from the repository to answer the question " ++
  "here is the repository info\n" ++
  "Repository name: " ++ repo_name ++ "\n" ++
  "Repository details:\n" ++
  "- Description: " ++ pyOrStr info.description "No description provided" ++ "\n" ++
  "- Primary language: " ++ pyOrStr info.language "Not specified" ++ "\n" ++
  "- Stars: " ++ toString info.stargazers_count ++ "\n" ++
  "- Forks: " ++ toString info.forks_count ++ "\n" ++
  "- Last updated: " ++ info.updated_at ++ "\n" ++
  "today's date is " ++ date ++ " and the time now is " ++ time

/-- Minimal fallback instruction of repository_context (agent.py lines
126 and 128). -/
def fallback_context (repo_name : String) : String :=
  "You are currently answering questions about the repository: " ++ repo_name

/-- The repository_context system-prompt composer (agent.py lines
100-128). The identifier is unpacked as username, repo =
repo_name.split("/") before the try block, so a split that does not
yield exactly two parts raises a ValueError. Inside the try block the
metadata fetch (modelled by the fetch argument) is protected: any
failure, and also a successful fetch that does not list the repository,
degrades to the minimal fallback instruction. -/
def repository_context (repo_name : String) (fetch : Except String (List RepoInfo))
    (date time : String) : Except String String :=
  match py_split_slash repo_name.data with
  | [_username, _repo] =>
    match fetch with
    | Except.error _ => Except.ok (fallback_context repo_name)
    | Except.ok repos =>
      match repos.find? (fun r => r.full_name == repo_name) with
      | some info => Except.ok (enriched_context repo_name info date time)
      | none => Except.ok (fallback_context repo_name)
  | _ => Except.error "ValueError: repo_name did not unpack into exactly two values"

/-- History directory constant of github_repo_assistant.py (line 55). -/
def HISTORY_DIR : String := "chat_history"

/-- Character replacement underlying repo_name.replace("/", "_"): on a
one-character pattern the Python replace is a character-wise map. -/
def replace_slash_underscore (c : Char) : Char :=
  if c = '/' then '_' else c

/-- Slash replacement over a whole string, the safe_name computation of
get_history_filename (github_repo_assistant.py line 63). -/
def py_replace_slash (s : String) : String :=
  String.mk (s.data.map replace_slash_underscore)

/-- The get_history_filename function (github_repo_assistant.py lines
58-64): a falsy (empty) repository name yields None, otherwise the
slashes are replaced by underscores and the result is joined under the
history directory with the _history.json suffix. -/
def get_history_filename (repo_name : String) : Option String :=
  if repo_name = "" then none
  else some (HISTORY_DIR ++ "/" ++ py_replace_slash repo_name ++ "_history.json")

/-- Reduction of the executable substring test to the contiguous
subsequence relation on character lists. -/
theorem strContains_eq_true_iff (hay needle : String) :
    strContains hay needle = true ↔ needle.data <:+: hay.data := by
  simp [strContains]

/-- C4: the issue-filter tool returns exactly those fetched issues whose
title or at least one label contains the query as a case-insensitive
substring; on the issue list from the spec example with query bug it
returns exactly the first issue, and its summary contains Found 1. -/
theorem analyze_issues_filters_by_title_or_label :
    (∀ (query state : String) (issues : List Issue) (i : Issue),
      i ∈ (analyze_issues query state issues).issues ↔
        i ∈ issues ∧
          ((py_lower query).data <:+: (py_lower i.title).data ∨
           ∃ l ∈ i.labels, (py_lower query).data <:+: (py_lower l).data)) ∧
    analyze_issues "bug" "all"
        [{ number := 1, title := "Fix bug", state := "open", labels := ["bug"] },
         { number := 2, title := "Add feature", state := "open", labels := ["enhancement"] }] =
      { issues := [{ number := 1, title := "Fix bug", state := "open", labels := ["bug"] }],
        summary := "Found 1 issues matching 'bug' with state 'all'." } ∧
    strContains
      (analyze_issues "bug" "all"
        [{ number := 1, title := "Fix bug", state := "open", labels := ["bug"] },
         { number := 2, title := "Add feature", state := "open", labels := ["enhancement"] }]).summary
      "Found 1" = true := by
  refine ⟨?_, by decide, by decide⟩
  intro query state issues i
  simp [analyze_issues, List.mem_filter, strContains]

/-- C5: the commit-filter tool returns exactly those fetched commits
whose message contains the query as a case-insensitive substring; on the
commit list from the spec example with query fix it returns exactly the
first commit. -/
theorem analyze_commits_filters_by_message :
    (∀ (query : String) (path : Option String) (commits : List Commit) (c : Commit),
      c ∈ (analyze_commits query path commits).commits ↔
        c ∈ commits ∧ (py_lower query).data <:+: (py_lower c.message).data) ∧
    analyze_commits "fix" none
        [{ sha := "s1", message := "Fix null pointer" },
         { sha := "s2", message := "Add docs" }] =
      { commits := [{ sha := "s1", message := "Fix null pointer" }],
        summary := "Found 1 commits matching 'fix'" } := by
  refine ⟨?_, by decide⟩
  intro query path commits c
  simp [analyze_commits, List.mem_filter, strContains]

/-- C2 counterexample: the list_issues handler does not coerce its
optional state parameter; a non-string marker object received as state is
forwarded unchanged to the collaborator instead of being replaced by the
declared default all. -/
theorem list_issues_state_not_coerced :
    list_issues_forwarded_state PyVal.fieldInfo = PyVal.fieldInfo ∧
    PyVal.fieldInfo ≠ PyVal.pyStr "all" := by
  decide

/-- C2 (amended): the defensive optional-parameter coercion exists in
exactly three handlers: analyze_issues replaces a non-None non-string
state by the default all, and list_commits and analyze_commits replace a
non-None non-string path by the default None; the list_issues state and
the list_directory_contents path carry no such guard and are forwarded
as received. -/
theorem optional_param_coercion_three_tools_only (v : PyVal)
    (h₁ : v ≠ PyVal.pyNone) (h₂ : v.isStr = false) :
    analyze_issues_coerce_state v = PyVal.pyStr "all" ∧
    list_commits_coerce_path v = PyVal.pyNone ∧
    analyze_commits_coerce_path v = PyVal.pyNone ∧
    list_issues_forwarded_state v = v ∧
    list_directory_contents_forwarded_path v = v := by
  simp [analyze_issues_coerce_state, list_commits_coerce_path, analyze_commits_coerce_path,
    list_issues_forwarded_state, list_directory_contents_forwarded_path, h₁, h₂]

/-- C2 witness: the amended coercion statement evaluated at the marker
object. -/
theorem optional_param_coercion_three_tools_only_witness :
    analyze_issues_coerce_state PyVal.fieldInfo = PyVal.pyStr "all" ∧
    list_commits_coerce_path PyVal.fieldInfo = PyVal.pyNone ∧
    analyze_commits_coerce_path PyVal.fieldInfo = PyVal.pyNone ∧
    list_issues_forwarded_state PyVal.fieldInfo = PyVal.fieldInfo ∧
    list_directory_contents_forwarded_path PyVal.fieldInfo = PyVal.fieldInfo :=
  optional_param_coercion_three_tools_only PyVal.fieldInfo (by decide) (by decide)

/-- C1 counterexample: the Result Validator accepts a candidate whose
answer is the empty string, so a Structured Result with an empty answer
is produced; non-emptiness of the answer is not part of the enforced
invariant. -/
theorem result_validator_accepts_empty_answer :
    validate_repository_analysis_result
        { answer := some "", sources := some [], confidence := some (1/2) } =
      Except.ok { answer := "", sources := [], confidence := 1/2 } ∧
    ("" : String).length = 0 := by
  refine ⟨?_, rfl⟩
  unfold validate_repository_analysis_result
  norm_num

/-- C1 (amended): every Structured Result produced by the validator has
its confidence present and in the closed interval from 0 to 1, equal to
the candidate confidence (no clamping), and a candidate with confidence
3/2 is rejected with a validation error; the answer field is required to
be present and a string, but may be empty. -/
theorem result_validator_confidence_invariant :
    (∀ (c : ResultCandidate) (r : RepositoryAnalysisResult),
        validate_repository_analysis_result c = Except.ok r →
          0 ≤ r.confidence ∧ r.confidence ≤ 1 ∧ c.confidence = some r.confidence) ∧
    (∀ (c : ResultCandidate), c.confidence = some (3/2) →
        ∀ (r : RepositoryAnalysisResult),
          validate_repository_analysis_result c ≠ Except.ok r) := by
  constructor
  · rintro ⟨ans, srcs, conf⟩ r h
    cases ans with
    | none => simp [validate_repository_analysis_result] at h
    | some a =>
      cases conf with
      | none => simp [validate_repository_analysis_result] at h
      | some cf =>
        by_cases h0 : cf < 0
        · simp [validate_repository_analysis_result, h0] at h
        · by_cases h1 : 1 < cf
          · simp [validate_repository_analysis_result, h0, h1] at h
          · simp [validate_repository_analysis_result, h0, h1] at h
            subst h
            exact ⟨le_of_not_lt h0, le_of_not_lt h1, rfl⟩
  · rintro ⟨ans, srcs, conf⟩ hconf r
    have hc : conf = some (3/2) := hconf
    subst hc
    cases ans with
    | none => simp [validate_repository_analysis_result]
    | some a =>
      simp [validate_repository_analysis_result,
        show ¬((3 : ℚ)/2 < 0) by norm_num, show (1 : ℚ) < 3/2 by norm_num]

/-- C1 witness: the amended confidence invariant evaluated on a concrete
accepted candidate and on the concrete rejected candidate with
confidence 3/2. -/
theorem result_validator_confidence_invariant_witness :
    (0 ≤ (1/2 : ℚ) ∧ (1/2 : ℚ) ≤ 1 ∧ (some (1/2 : ℚ) : Option ℚ) = some (1/2 : ℚ)) ∧
    validate_repository_analysis_result
        { answer := some "ok", sources := none, confidence := some (3/2) } ≠
      Except.ok { answer := "ok", sources := [], confidence := 3/2 } := by
  constructor
  · exact result_validator_confidence_invariant.1
      { answer := some "ok", sources := none, confidence := some (1/2) }
      { answer := "ok", sources := [], confidence := 1/2 }
      (by unfold validate_repository_analysis_result; norm_num)
  · exact result_validator_confidence_invariant.2
      { answer := some "ok", sources := none, confidence := some (3/2) } rfl
      { answer := "ok", sources := [], confidence := 3/2 }

/-- C7: the content tools validate the shape of the collaborator output:
the directory-listing tool raises a ValueError on any single dictionary
(in particular one whose type tag is file) instead of returning an empty
list, and the file-content tool raises a ValueError on a list and on any
dictionary whose type tag is not file. -/
theorem content_tools_shape_validation :
    (∀ (path : String) (fields : List (String × String)),
      list_directory_contents path (ContentVal.pydict fields) =
        Except.error ("Path '" ++ path ++ "' does not point to a directory")) ∧
    (∀ (path : String) (items : List (List (String × String))),
      get_file_content path (ContentVal.pylist items) =
        Except.error ("Path '" ++ path ++ "' does not point to a file")) ∧
    (∀ (path : String) (fields : List (String × String)),
      lookupField fields "type" ≠ some "file" →
        get_file_content path (ContentVal.pydict fields) =
          Except.error ("Path '" ++ path ++ "' does not point to a file")) := by
  refine ⟨fun path fields => rfl, fun path items => rfl, ?_⟩
  intro path fields h
  rcases hl : lookupField fields "type" with _ | t
  · simp [get_file_content, hl]
  · rw [hl] at h
    have ht : t ≠ "file" := fun he => h (by rw [he])
    simp [get_file_content, hl, ht]

/-- C7 witness: the shape checks evaluated on a concrete file dictionary
given to the directory tool, a concrete listing given to the file tool,
and a concrete non-file dictionary given to the file tool. -/
theorem content_tools_shape_validation_witness :
    list_directory_contents "README.md" (ContentVal.pydict [("type", "file")]) =
      Except.error ("Path '" ++ "README.md" ++ "' does not point to a directory") ∧
    get_file_content "src" (ContentVal.pylist [[("type", "file")]]) =
      Except.error ("Path '" ++ "src" ++ "' does not point to a file") ∧
    get_file_content "src" (ContentVal.pydict [("type", "dir")]) =
      Except.error ("Path '" ++ "src" ++ "' does not point to a file") :=
  ⟨content_tools_shape_validation.1 "README.md" [("type", "file")],
   content_tools_shape_validation.2.1 "src" [[("type", "file")]],
   content_tools_shape_validation.2.2 "src" [("type", "dir")] (by decide)⟩

/-- C8: loading the history from a location whose file does not exist
returns the empty message sequence; the load function is total, so no
exception escapes it. -/
theorem load_history_missing_file_empty (filename : String) (fs : FileStore)
    (h : fs filename = none) :
    load_messages_from_json filename fs = [] := by
  simp [load_messages_from_json, h]

/-- C8 witness: loading from an empty file system returns the empty
history. -/
theorem load_history_missing_file_empty_witness :
    load_messages_from_json "chat_history/absent_history.json" (fun _ => none) = [] :=
  load_history_missing_file_empty "chat_history/absent_history.json" (fun _ => none) rfl

/-- Deserialization is a left inverse of serialization on message
lists. -/
theorem deserialize_serialize_messages (M : List Message) :
    deserializeMessageList (M.map serializeMessage) = some M := by
  induction M with
  | nil => rfl
  | cons m rest ih =>
    have hm : deserializeMessage (serializeMessage m) = some m := rfl
    simp [deserializeMessageList, hm, ih]

/-- C3: loading the history right after saving it to the same location
returns the saved message sequence unchanged, for every non-empty
message sequence, location and prior file-system state. -/
theorem save_load_round_trip (M : List Message) (filename : String) (fs : FileStore)
    (h : M ≠ []) :
    load_messages_from_json filename (save_messages_to_json M filename fs) = M := by
  unfold load_messages_from_json save_messages_to_json
  simp [deserializeMessages, deserialize_serialize_messages]

/-- C3 witness: the round trip evaluated on a concrete one-message
history over an empty file system. -/
theorem save_load_round_trip_witness :
    ([{ role := "user", content := "hello" }] : List Message) ≠ [] ∧
    load_messages_from_json "chat_history/octocat_hello_history.json"
        (save_messages_to_json [{ role := "user", content := "hello" }]
          "chat_history/octocat_hello_history.json" (fun _ => none)) =
      [{ role := "user", content := "hello" }] := by
  refine ⟨by simp, ?_⟩
  exact save_load_round_trip [{ role := "user", content := "hello" }]
    "chat_history/octocat_hello_history.json" (fun _ => none) (by simp)

/-- Appending to a non-trivial literal on the left never yields the
empty string. -/
theorem append_ne_empty_left (s t : String) (h : s.data ≠ []) : s ++ t ≠ "" := by
  intro he
  apply h
  have hd := congrArg String.data he
  rw [String.data_append] at hd
  exact (List.append_eq_nil.mp hd).1

/-- C6: when the repository identifier is in owner slash name form and
the metadata fetch fails, or succeeds without listing the repository,
the Context Composer does not fail: it returns the minimal fallback
instruction, which is a non-empty string containing the repository
identifier. -/
theorem repository_context_fallback_on_fetch_failure
    (repo_name err date time : String) (repos : List RepoInfo)
    (h : (py_split_slash repo_name.data).length = 2)
    (hnf : repos.find? (fun r => r.full_name == repo_name) = none) :
    (repository_context repo_name (Except.error err) date time =
        Except.ok (fallback_context repo_name) ∧
      repository_context repo_name (Except.ok repos) date time =
        Except.ok (fallback_context repo_name)) ∧
    fallback_context repo_name ≠ "" ∧
    strContains (fallback_context repo_name) repo_name = true := by
  refine ⟨?_, ?_, ?_⟩
  · unfold repository_context
    rcases hl : py_split_slash repo_name.data with _ | ⟨a, _ | ⟨b, _ | ⟨c, t⟩⟩⟩
    · simp_all
    · simp_all
    · exact ⟨rfl, by simp [hnf]⟩
    · simp_all
  · show ("You are currently answering questions about the repository: " ++ repo_name) ≠ ""
    exact append_ne_empty_left _ _ (by decide)
  · refine (strContains_eq_true_iff _ _).mpr ?_
    show repo_name.data <:+:
      ("You are currently answering questions about the repository: " ++ repo_name).data
    rw [String.data_append]
    exact ⟨("You are currently answering questions about the repository: ").data, [], by simp⟩

/-- C6 witness: the fallback contract evaluated at a concrete well-formed
identifier, a concrete fetch error, and a concrete repository listing
that does not contain the repository. -/
theorem repository_context_fallback_on_fetch_failure_witness :
    (repository_context "octocat/hello" (Except.error "401 Unauthorized")
        "2025-01-01" "12:00:00" = Except.ok (fallback_context "octocat/hello") ∧
      repository_context "octocat/hello" (Except.ok []) "2025-01-01" "12:00:00" =
        Except.ok (fallback_context "octocat/hello")) ∧
    fallback_context "octocat/hello" ≠ "" ∧
    strContains (fallback_context "octocat/hello") "octocat/hello" = true :=
  repository_context_fallback_on_fetch_failure "octocat/hello" "401 Unauthorized"
    "2025-01-01" "12:00:00" [] (by decide) rfl

/-- C10: the fallback of the Context Composer only covers the protected
metadata fetch; the identifier is unpacked into exactly two components
before the protected block, so an identifier that does not split on the
separator into exactly two parts makes the composer raise a ValueError
for every fetch outcome, instead of returning the fallback. -/
theorem repository_context_requires_owner_name_form
    (repo_name date time : String) (fetch : Except String (List RepoInfo))
    (h : (py_split_slash repo_name.data).length ≠ 2) :
    repository_context repo_name fetch date time =
      Except.error "ValueError: repo_name did not unpack into exactly two values" := by
  unfold repository_context
  rcases hl : py_split_slash repo_name.data with _ | ⟨a, _ | ⟨b, _ | ⟨c, t⟩⟩⟩ <;> simp_all

/-- C10 witness: the composer raises on the separator-free identifier abc
and on the identifier a/b/c with two separators, for a concrete
successful fetch. -/
theorem repository_context_requires_owner_name_form_witness :
    repository_context "abc" (Except.ok []) "2025-01-01" "12:00:00" =
      Except.error "ValueError: repo_name did not unpack into exactly two values" ∧
    repository_context "a/b/c" (Except.ok []) "2025-01-01" "12:00:00" =
      Except.error "ValueError: repo_name did not unpack into exactly two values" :=
  ⟨repository_context_requires_owner_name_form "abc" "2025-01-01" "12:00:00"
      (Except.ok []) (by decide),
   repository_context_requires_owner_name_form "a/b/c" "2025-01-01" "12:00:00"
      (Except.ok []) (by decide)⟩

/-- C9 counterexample: two distinct repository identifiers, each in owner
slash name form with exactly one separator and non-empty components, are
mapped by get_history_filename to the same history filename, because the
underscore introduced for the separator is not distinguishable from an
underscore already present in a component. -/
theorem get_history_filename_collision :
    get_history_filename "a_b/c" = get_history_filename "a/b_c" ∧
    ("a_b/c" : String) ≠ "a/b_c" ∧
    py_split_slash ("a_b/c" : String).data = [['a', '_', 'b'], ['c']] ∧
    py_split_slash ("a/b_c" : String).data = [['a'], ['b', '_', 'c']] := by
  decide

/-- The slash replacement leaves a slash-free character list
unchanged. -/
theorem map_replace_eq_self_of_no_slash (l : List Char) (h : '/' ∉ l) :
    l.map replace_slash_underscore = l := by
  induction l with
  | nil => rfl
  | cons c rest ih =>
    simp only [List.mem_cons, not_or] at h
    have hc : c ≠ '/' := fun he => h.1 he.symm
    simp [replace_slash_underscore, hc, ih h.2]

/-- Cutting two lists at a shared separator element that occurs in
neither left part determines both parts. -/
theorem append_cons_same_inj {α : Type} {x : α} :
    ∀ (a₁ a₂ b₁ b₂ : List α), x ∉ a₁ → x ∉ a₂ →
      a₁ ++ x :: b₁ = a₂ ++ x :: b₂ → a₁ = a₂ ∧ b₁ = b₂ := by
  intro a₁
  induction a₁ with
  | nil =>
    intro a₂ b₁ b₂ h₁ h₂ heq
    cases a₂ with
    | nil =>
      rw [List.nil_append, List.nil_append] at heq
      cases heq
      exact ⟨rfl, rfl⟩
    | cons d a₂' =>
      rw [List.nil_append, List.cons_append] at heq
      injection heq with hxd hrest
      exact absurd (by rw [hxd]; exact List.mem_cons_self d a₂') h₂
  | cons c a₁' ih =>
    intro a₂ b₁ b₂ h₁ h₂ heq
    cases a₂ with
    | nil =>
      rw [List.cons_append, List.nil_append] at heq
      injection heq with hcx hrest
      exact absurd (by rw [← hcx]; exact List.mem_cons_self c a₁') h₁
    | cons d a₂' =>
      rw [List.cons_append, List.cons_append] at heq
      injection heq with hcd hrest
      have h₁' : x ∉ a₁' := fun hm => h₁ (List.mem_cons_of_mem _ hm)
      have h₂' : x ∉ a₂' := fun hm => h₂ (List.mem_cons_of_mem _ hm)
      obtain ⟨ha, hb⟩ := ih a₂' b₁ b₂ h₁' h₂' hrest
      exact ⟨by rw [hcd, ha], hb⟩

/-- C9 (amended): the history-filename derivation is a pure function of
the repository identifier (hence deterministic), and it is injective on
identifiers in owner slash name form whose owner component contains no
underscore and no separator and whose name component contains no
separator; identifiers differing only in the placement of an underscore
versus the separator collide. -/
theorem get_history_filename_injective_on_underscore_free_owners
    (o₁ n₁ o₂ n₂ : String)
    (ho₁s : '/' ∉ o₁.data) (ho₁u : '_' ∉ o₁.data)
    (ho₂s : '/' ∉ o₂.data) (ho₂u : '_' ∉ o₂.data)
    (hn₁ : '/' ∉ n₁.data) (hn₂ : '/' ∉ n₂.data)
    (heq : get_history_filename (o₁ ++ "/" ++ n₁) = get_history_filename (o₂ ++ "/" ++ n₂)) :
    o₁ ++ "/" ++ n₁ = o₂ ++ "/" ++ n₂ := by
  have hd₁ : (o₁ ++ "/" ++ n₁).data = o₁.data ++ '/' :: n₁.data := by
    rw [String.data_append, String.data_append, List.append_assoc]; rfl
  have hd₂ : (o₂ ++ "/" ++ n₂).data = o₂.data ++ '/' :: n₂.data := by
    rw [String.data_append, String.data_append, List.append_assoc]; rfl
  have hne₁ : (o₁ ++ "/" ++ n₁) ≠ "" := by
    intro he
    have := congrArg String.data he
    rw [hd₁] at this
    simpa using congrArg List.length this
  have hne₂ : (o₂ ++ "/" ++ n₂) ≠ "" := by
    intro he
    have := congrArg String.data he
    rw [hd₂] at this
    simpa using congrArg List.length this
  unfold get_history_filename at heq
  rw [if_neg hne₁, if_neg hne₂] at heq
  injection heq with heq'
  have hdata := congrArg String.data heq'
  rw [String.data_append, String.data_append, String.data_append, String.data_append] at hdata
  have hmid : (py_replace_slash (o₁ ++ "/" ++ n₁)).data =
      (py_replace_slash (o₂ ++ "/" ++ n₂)).data :=
    List.append_cancel_left (List.append_cancel_right hdata)
  have hrep : ∀ (o n : String), '/' ∉ o.data → '/' ∉ n.data →
      (py_replace_slash (o ++ "/" ++ n)).data = o.data ++ '_' :: n.data := by
    intro o n ho hn
    show ((o ++ "/" ++ n).data).map replace_slash_underscore = o.data ++ '_' :: n.data
    rw [String.data_append, String.data_append, List.map_append, List.map_append,
      map_replace_eq_self_of_no_slash o.data ho, map_replace_eq_self_of_no_slash n.data hn,
      List.append_assoc]
    rfl
  rw [hrep o₁ n₁ ho₁s hn₁, hrep o₂ n₂ ho₂s hn₂] at hmid
  obtain ⟨ho, hn⟩ := append_cons_same_inj o₁.data o₂.data n₁.data n₂.data ho₁u ho₂u hmid
  have ho' : o₁ = o₂ := congrArg String.mk ho
  have hn' : n₁ = n₂ := congrArg String.mk hn
  rw [ho', hn']

/-- C9 witness: the amended injectivity statement applied at a concrete
identifier whose owner is underscore-free. -/
theorem get_history_filename_injective_witness :
    ("alice" ++ "/" ++ "my_repo" : String) = "alice" ++ "/" ++ "my_repo" :=
  get_history_filename_injective_on_underscore_free_owners "alice" "my_repo" "alice" "my_repo"
    (by decide) (by decide) (by decide) (by decide) (by decide) (by decide) rfl
